import Mathlib
set_option maxRecDepth 40000

/-!
Verification of the Action Reconciliation Core of the facets Terraform
provider against its natural-language specification.

The Go source is shallowly embedded: pure helpers become Lean functions over
`String` / `Nat` / `Int`, Go machine integers become `Nat` with explicit
`% 2 ^ 32` where overflow matters, Go maps become functions
`String → Option String` (Go map insertion is function update), fallible code
returns `Except`, and the calls the reconciler makes against the external
object store are modelled with an explicit client record plus an event trace.
-/

namespace Facets

/-! ## Bytes of a Go string

Go converts a string to its UTF-8 bytes (`[]byte(s)`).  We embed the UTF-8
encoding of each scalar value; bytes are `Nat` values below 256. -/

def utf8Char (c : Char) : List Nat :=
  let n := c.toNat
  if n < 0x80 then [n]
  else if n < 0x800 then [0xC0 + n / 64, 0x80 + n % 64]
  else if n < 0x10000 then [0xE0 + n / 4096, 0x80 + n / 64 % 64, 0x80 + n % 64]
  else [0xF0 + n / 0x40000, 0x80 + n / 4096 % 64, 0x80 + n / 64 % 64, 0x80 + n % 64]

def strBytes (s : String) : List Nat :=
  (s.data.map utf8Char).flatten

/-! ## MD5 (crypto/md5)

The provider hashes the joined input with `crypto/md5` (Go standard library;
RFC 1321).  The arithmetic is on 32-bit words, embedded as `Nat % 2 ^ 32`. -/

def mask32 : Nat := 2 ^ 32 - 1

def rotl32 (x s : Nat) : Nat :=
  ((x <<< s) &&& mask32) ||| (x >>> (32 - s))

/-- The 64 round constants of MD5 (RFC 1321 table T). -/
def md5K : List Nat :=
  [0xd76aa478, 0xe8c7b756, 0x242070db, 0xc1bdceee,
   0xf57c0faf, 0x4787c62a, 0xa8304613, 0xfd469501,
   0x698098d8, 0x8b44f7af, 0xffff5bb1, 0x895cd7be,
   0x6b901122, 0xfd987193, 0xa679438e, 0x49b40821,
   0xf61e2562, 0xc040b340, 0x265e5a51, 0xe9b6c7aa,
   0xd62f105d, 0x02441453, 0xd8a1e681, 0xe7d3fbc8,
   0x21e1cde6, 0xc33707d6, 0xf4d50d87, 0x455a14ed,
   0xa9e3e905, 0xfcefa3f8, 0x676f02d9, 0x8d2a4c8a,
   0xfffa3942, 0x8771f681, 0x6d9d6122, 0xfde5380c,
   0xa4beea44, 0x4bdecfa9, 0xf6bb4b60, 0xbebfbc70,
   0x289b7ec6, 0xeaa127fa, 0xd4ef3085, 0x04881d05,
   0xd9d4d039, 0xe6db99e5, 0x1fa27cf8, 0xc4ac5665,
   0xf4292244, 0x432aff97, 0xab9423a7, 0xfc93a039,
   0x655b59c3, 0x8f0ccc92, 0xffeff47d, 0x85845dd1,
   0x6fa87e4f, 0xfe2ce6e0, 0xa3014314, 0x4e0811a1,
   0xf7537e82, 0xbd3af235, 0x2ad7d2bb, 0xeb86d391]

/-- The 64 per-round left-rotation amounts of MD5. -/
def md5S : List Nat :=
  [7, 12, 17, 22, 7, 12, 17, 22, 7, 12, 17, 22, 7, 12, 17, 22,
   5, 9, 14, 20, 5, 9, 14, 20, 5, 9, 14, 20, 5, 9, 14, 20,
   4, 11, 16, 23, 4, 11, 16, 23, 4, 11, 16, 23, 4, 11, 16, 23,
   6, 10, 15, 21, 6, 10, 15, 21, 6, 10, 15, 21, 6, 10, 15, 21]

/-- Nonlinear function of round `i` on words `b c d`. -/
def md5F (i b c d : Nat) : Nat :=
  if i < 16 then (b &&& c) ||| ((mask32 ^^^ b) &&& d)
  else if i < 32 then (b &&& d) ||| (c &&& (mask32 ^^^ d))
  else if i < 48 then b ^^^ c ^^^ d
  else c ^^^ (b ||| (mask32 ^^^ d))

/-- Message-word index used in round `i`. -/
def md5Idx (i : Nat) : Nat :=
  if i < 16 then i
  else if i < 32 then (5 * i + 1) % 16
  else if i < 48 then (3 * i + 5) % 16
  else (7 * i) % 16

structure MD5State where
  a : Nat
  b : Nat
  c : Nat
  d : Nat
deriving Repr, DecidableEq

def md5Init : MD5State := ⟨0x67452301, 0xefcdab89, 0x98badcfe, 0x10325476⟩

/-- Little-endian 32-bit word `j` of a 64-byte block. -/
def blockWord (blk : List Nat) (j : Nat) : Nat :=
  blk.getD (4 * j) 0 + 2 ^ 8 * blk.getD (4 * j + 1) 0 +
    2 ^ 16 * blk.getD (4 * j + 2) 0 + 2 ^ 24 * blk.getD (4 * j + 3) 0

def md5Round (blk : List Nat) (st : MD5State) (i : Nat) : MD5State :=
  let f := md5F i st.b st.c st.d
  let tmp := (st.a + f + md5K.getD i 0 + blockWord blk (md5Idx i)) % 2 ^ 32
  let nb := (st.b + rotl32 tmp (md5S.getD i 0)) % 2 ^ 32
  ⟨st.d, nb, st.b, st.c⟩

def md5ProcessBlock (st : MD5State) (blk : List Nat) : MD5State :=
  let r := (List.range 64).foldl (md5Round blk) st
  ⟨(st.a + r.a) % 2 ^ 32, (st.b + r.b) % 2 ^ 32,
   (st.c + r.c) % 2 ^ 32, (st.d + r.d) % 2 ^ 32⟩

/-- MD5 padding: append `0x80`, zero bytes to 56 mod 64, then the bit length
as a 64-bit little-endian integer. -/
def md5Pad (msg : List Nat) : List Nat :=
  let ml := msg.length * 8
  let padLen := (119 - msg.length % 64) % 64
  msg ++ [0x80] ++ List.replicate padLen 0 ++
    (List.range 8).map (fun i => ml / 2 ^ (8 * i) % 256)

def md5Blocks (l : List Nat) : List (List Nat) :=
  if h : l = [] then []
  else
    have : (List.drop 64 l).length < l.length := by
      have hl : 0 < l.length := List.length_pos.mpr h
      simp only [List.length_drop]
      omega
    l.take 64 :: md5Blocks (l.drop 64)
termination_by l.length

def md5Words (msg : List Nat) : MD5State :=
  (md5Blocks (md5Pad msg)).foldl md5ProcessBlock md5Init

/-- Little-endian byte rendering of a 32-bit word. -/
def wordBytesLE (w : Nat) : List Nat :=
  [w % 256, w / 2 ^ 8 % 256, w / 2 ^ 16 % 256, w / 2 ^ 24 % 256]

/-- The 16-byte MD5 digest of a byte string (`md5.Sum`). -/
def md5Bytes (msg : List Nat) : List Nat :=
  let st := md5Words msg
  wordBytesLE st.a ++ wordBytesLE st.b ++ wordBytesLE st.c ++ wordBytesLE st.d

def hexDigit (n : Nat) : Char :=
  "0123456789abcdef".data.getD n '0'

/-- Two lowercase hex digits of one byte (Go `%x` formatting). -/
def byteHex (b : Nat) : List Char :=
  [hexDigit (b / 16 % 16), hexDigit (b % 16)]

def bytesToHex (bs : List Nat) : String :=
  String.mk ((bs.map byteHex).flatten)

/-- `fmt.Sprintf("%x", md5.Sum([]byte(s)))`: the lowercase-hex MD5 digest of
the UTF-8 bytes of `s`. -/
def md5Hex (s : String) : String :=
  bytesToHex (md5Bytes (strBytes s))

/-! ## Identity generation

`generateResourceNames` (resource_tekton_action_kubernetes.go),
`generateAWSResourceNames` (resource_tekton_action_aws.go) and
`tekton.GenerateNames` (tekton package) all hash
`resourceName-envName-displayName` with MD5 and truncate names longer than 63
characters to their trailing 63 characters. -/

/-- The inline `if len(name) > 63 \x7b name = name[len(name)-63:] \x7d`
truncation the generators apply to each produced name. -/
def truncate63 (s : String) : String :=
  if s.length > 63 then ⟨s.data.drop (s.data.length - 63)⟩ else s

/-- `generateResourceNames` from resource_tekton_action_kubernetes.go.
Returns (taskName, stepActionName). -/
def generateResourceNames (resourceName envName displayName : String) :
    String × String :=
  let hashInput := resourceName ++ "-" ++ envName ++ "-" ++ displayName
  let nameHash := md5Hex hashInput
  let stepActionName := truncate63 ("setup-credentials-" ++ nameHash)
  let taskName := truncate63 nameHash
  (taskName, stepActionName)

/-- `generateAWSResourceNames` from resource_tekton_action_aws.go.
Returns (taskName, stepActionName); note the AWS-specific prefix. -/
def generateAWSResourceNames (resourceName envName displayName : String) :
    String × String :=
  let hashInput := resourceName ++ "-" ++ envName ++ "-" ++ displayName
  let nameHash := md5Hex hashInput
  let stepActionName := truncate63 ("setup-aws-credentials-" ++ nameHash)
  let taskName := truncate63 nameHash
  (taskName, stepActionName)

structure ResourceNames where
  TaskName : String
  StepActionName : String
deriving Repr, DecidableEq

/-- `tekton.GenerateNames` (tekton package names file): the unified-prefix
variant used by the refactored resource implementation. -/
def GenerateNames (resourceName envName displayName : String) : ResourceNames :=
  let hashInput := resourceName ++ "-" ++ envName ++ "-" ++ displayName
  let nameHash := md5Hex hashInput
  ⟨truncate63 nameHash, truncate63 ("setup-credentials-" ++ nameHash)⟩

/-! ### Facts about the generated identifiers -/

theorem byteHex_length (b : Nat) : (byteHex b).length = 2 := rfl

theorem bytesToHex_data_length (bs : List Nat) :
    ((bs.map byteHex).flatten).length = 2 * bs.length := by
  induction bs with
  | nil => simp
  | cons b t ih =>
    simp only [List.map_cons, List.flatten_cons, List.length_append, ih,
      byteHex_length, List.length_cons]
    omega

theorem md5Bytes_length (msg : List Nat) : (md5Bytes msg).length = 16 := by
  simp [md5Bytes, wordBytesLE]

theorem md5Hex_data_length (s : String) : (md5Hex s).data.length = 32 := by
  show ((md5Bytes (strBytes s)).map byteHex).flatten.length = 32
  rw [bytesToHex_data_length, md5Bytes_length]

/-- The hash rendering is always a 32-character string. -/
theorem md5Hex_length (s : String) : (md5Hex s).length = 32 :=
  md5Hex_data_length s

theorem hexDigit_mem (n : Nat) (h : n < 16) :
    hexDigit n ∈ "0123456789abcdef".data := by
  interval_cases n <;> decide

/-- Every character of the rendered hash is a lowercase hex digit. -/
theorem md5Hex_lowercase_hex (s : String) :
    ∀ c ∈ (md5Hex s).data, c ∈ "0123456789abcdef".data := by
  intro c hc
  have hc2 : c ∈ ((md5Bytes (strBytes s)).map byteHex).flatten := hc
  rw [List.mem_flatten] at hc2
  obtain ⟨l, hl, hcl⟩ := hc2
  rw [List.mem_map] at hl
  obtain ⟨b, _, rfl⟩ := hl
  simp only [byteHex, List.mem_cons, List.not_mem_nil, or_false] at hcl
  rcases hcl with rfl | rfl
  · exact hexDigit_mem _ (Nat.mod_lt _ (by norm_num))
  · exact hexDigit_mem _ (Nat.mod_lt _ (by norm_num))

theorem string_length_mk (l : List Char) : (String.mk l).length = l.length := rfl

theorem truncate63_of_le (s : String) (h : s.length ≤ 63) : truncate63 s = s := by
  simp [truncate63, Nat.not_lt.mpr h, show ¬ s.length > 63 from Nat.not_lt.mpr h]

/-- Truncation keeps the trailing 63 characters: the result is a suffix of
the input of length exactly 63. -/
theorem truncate63_of_gt (s : String) (h : s.length > 63) :
    (truncate63 s).data <:+ s.data ∧ (truncate63 s).length = 63 := by
  have hlen : s.data.length = s.length := rfl
  constructor
  · simp only [truncate63, h, if_true]
    exact List.drop_suffix _ _
  · show (if s.length > 63 then (⟨s.data.drop (s.data.length - 63)⟩ : String)
      else s).length = 63
    simp only [h, if_true, string_length_mk, List.length_drop, hlen]
    omega

theorem truncate63_length_le (s : String) : (truncate63 s).length ≤ 63 := by
  by_cases h : s.length > 63
  · exact le_of_eq (truncate63_of_gt s h).2
  · rw [truncate63_of_le s (Nat.not_lt.mp h)]
    exact Nat.not_lt.mp h

theorem prefixed_hash_length (p s : String) :
    (p ++ md5Hex s).length = p.length + 32 := by
  rw [String.length_append, md5Hex_length]

theorem generateResourceNames_eq (r e d : String) :
    generateResourceNames r e d =
      (md5Hex (r ++ "-" ++ e ++ "-" ++ d),
       "setup-credentials-" ++ md5Hex (r ++ "-" ++ e ++ "-" ++ d)) := by
  have h1 : (md5Hex (r ++ "-" ++ e ++ "-" ++ d)).length ≤ 63 := by
    rw [md5Hex_length]; omega
  have h2 :
      ("setup-credentials-" ++ md5Hex (r ++ "-" ++ e ++ "-" ++ d)).length ≤ 63 := by
    rw [prefixed_hash_length]; decide
  show (truncate63 (md5Hex (r ++ "-" ++ e ++ "-" ++ d)),
    truncate63 ("setup-credentials-" ++ md5Hex (r ++ "-" ++ e ++ "-" ++ d))) = _
  rw [truncate63_of_le _ h1, truncate63_of_le _ h2]

theorem generateAWSResourceNames_eq (r e d : String) :
    generateAWSResourceNames r e d =
      (md5Hex (r ++ "-" ++ e ++ "-" ++ d),
       "setup-aws-credentials-" ++ md5Hex (r ++ "-" ++ e ++ "-" ++ d)) := by
  have h1 : (md5Hex (r ++ "-" ++ e ++ "-" ++ d)).length ≤ 63 := by
    rw [md5Hex_length]; omega
  have h2 :
      ("setup-aws-credentials-" ++
        md5Hex (r ++ "-" ++ e ++ "-" ++ d)).length ≤ 63 := by
    rw [prefixed_hash_length]; decide
  show (truncate63 (md5Hex (r ++ "-" ++ e ++ "-" ++ d)),
    truncate63 ("setup-aws-credentials-" ++ md5Hex (r ++ "-" ++ e ++ "-" ++ d))) = _
  rw [truncate63_of_le _ h1, truncate63_of_le _ h2]

theorem GenerateNames_eq (r e d : String) :
    GenerateNames r e d =
      ⟨md5Hex (r ++ "-" ++ e ++ "-" ++ d),
       "setup-credentials-" ++ md5Hex (r ++ "-" ++ e ++ "-" ++ d)⟩ := by
  have h1 : (md5Hex (r ++ "-" ++ e ++ "-" ++ d)).length ≤ 63 := by
    rw [md5Hex_length]; omega
  have h2 :
      ("setup-credentials-" ++ md5Hex (r ++ "-" ++ e ++ "-" ++ d)).length ≤ 63 := by
    rw [prefixed_hash_length]; decide
  show ResourceNames.mk (truncate63 (md5Hex (r ++ "-" ++ e ++ "-" ++ d)))
    (truncate63 ("setup-credentials-" ++ md5Hex (r ++ "-" ++ e ++ "-" ++ d))) = _
  rw [truncate63_of_le _ h1, truncate63_of_le _ h2]

/-! ## Metadata builder (tekton/metadata.go)

A Go `map[string]string` is embedded as `String → Option String`; writing a
key is function update, so copying every entry of a map into a fresh map is
the identity on this representation. -/

def GoMap : Type := String → Option String

def mapInsert (m : GoMap) (k v : String) : GoMap :=
  fun q => if q = k then some v else m q

def emptyGoMap : GoMap := fun _ => none

structure ResourceMetadata where
  DisplayName : String
  ResourceName : String
  ResourceKind : String
  EnvUniqueName : String
  ClusterID : String
  IsCloudAction : Bool
  CustomLabels : GoMap

/-- `os.Getenv("CLUSTER_ID")` defaulting: the empty string (Go's result for
an absent variable) becomes the sentinel `"na"`.  This exact conditional
appears in `NewResourceMetadata` and in the Create/Update paths of both
resource implementations. -/
def clusterIDDefault (env : String) : String :=
  if env = "" then "na" else env

/-- `tekton.NewResourceMetadata`; the process environment value of
`CLUSTER_ID` is passed explicitly as `clusterEnv`. -/
def NewResourceMetadata (clusterEnv : String)
    (displayName resourceName resourceKind envUniqueName : String)
    (isCloudAction : Bool) (customLabels : GoMap) : ResourceMetadata :=
  { DisplayName := displayName
    ResourceName := resourceName
    ResourceKind := resourceKind
    EnvUniqueName := envUniqueName
    ClusterID := clusterIDDefault clusterEnv
    IsCloudAction := isCloudAction
    CustomLabels := customLabels }

def formatBool (b : Bool) : String :=
  if b then "true" else "false"

/-- `ResourceMetadata.Labels`: start from the custom labels, then write the
six auto-derived keys (in source order), which therefore take precedence. -/
def ResourceMetadata.Labels (m : ResourceMetadata) : GoMap :=
  mapInsert
    (mapInsert
      (mapInsert
        (mapInsert
          (mapInsert
            (mapInsert m.CustomLabels "display_name" m.DisplayName)
            "resource_name" m.ResourceName)
          "resource_kind" m.ResourceKind)
        "environment_unique_name" m.EnvUniqueName)
      "cluster_id" m.ClusterID)
    "cloud_action" (formatBool m.IsCloudAction)

/-- `buildLabels` from resource_tekton_action_kubernetes.go: the fixed
five-key label map (no custom labels in this code path). -/
def buildLabels (displayName resourceName resourceKind envUniqueName
    clusterID : String) : GoMap :=
  mapInsert
    (mapInsert
      (mapInsert
        (mapInsert
          (mapInsert emptyGoMap "display_name" displayName)
          "resource_name" resourceName)
        "resource_kind" resourceKind)
      "environment_unique_name" envUniqueName)
    "cluster_id" clusterID

/-! ## Credential resolution — Variant A (dual-mode internal/aws/client.go)

Terraform framework `types.String` is null or a value; `ValueString` of null
is `""`.  The `.As` extraction of already-typed configuration cannot fail in
this embedding, so the diagnostics branches of the source disappear. -/

inductive TFString where
  | null : TFString
  | val : String → TFString
deriving Repr, DecidableEq

def TFString.IsNull : TFString → Bool
  | .null => true
  | .val _ => false

def TFString.ValueString : TFString → String
  | .null => ""
  | .val s => s

namespace VariantA

structure ProviderAWSAssumeRoleConfig where
  RoleARN : TFString
  SessionName : TFString
  ExternalID : TFString
  Duration : Option Int
deriving Repr, DecidableEq

structure ProviderAWSConfig where
  Region : TFString
  AccessKey : TFString
  SecretKey : TFString
  AssumeRole : Option ProviderAWSAssumeRoleConfig
deriving Repr, DecidableEq

structure ProviderModel where
  AWS : Option ProviderAWSConfig
deriving Repr, DecidableEq

structure InlineCredentials where
  AccessKey : String
  SecretKey : String
deriving Repr, DecidableEq

structure AssumeRoleConfig where
  RoleARN : String
  SessionName : String
  ExternalID : String
  Duration : Int
  BaseCredentials : Option InlineCredentials
deriving Repr, DecidableEq

structure AWSAuthConfig where
  Region : String
  InlineCredentials : Option InlineCredentials
  AssumeRoleConfig : Option AssumeRoleConfig
deriving Repr, DecidableEq

/-- `aws.GetAWSConfig`, dual-mode variant: region always required; inline
credentials take unconditional priority over `assume_role`. -/
def GetAWSConfig (providerModel : Option ProviderModel) :
    Except String AWSAuthConfig :=
  match providerModel with
  | none => .error "provider model is nil"
  | some pm =>
    match pm.AWS with
    | none => .error "AWS configuration is required"
    | some awsConfig =>
      if awsConfig.Region.IsNull || awsConfig.Region.ValueString == "" then
        .error "AWS region is required"
      else
        let region := awsConfig.Region.ValueString
        let hasInlineCreds :=
          !awsConfig.AccessKey.IsNull && awsConfig.AccessKey.ValueString != "" &&
            !awsConfig.SecretKey.IsNull && awsConfig.SecretKey.ValueString != ""
        let hasAssumeRole := awsConfig.AssumeRole.isSome
        if !hasInlineCreds && !hasAssumeRole then
          .error "AWS authentication is required"
        else if hasInlineCreds then
          .ok { Region := region
                InlineCredentials :=
                  some { AccessKey := awsConfig.AccessKey.ValueString
                         SecretKey := awsConfig.SecretKey.ValueString }
                AssumeRoleConfig := none }
        else
          match awsConfig.AssumeRole with
          | none => .error "invalid AWS configuration state"
          | some assumeRoleConfig =>
            if assumeRoleConfig.RoleARN.IsNull ||
                assumeRoleConfig.RoleARN.ValueString == "" then
              .error "role_arn is required in the assume_role block"
            else
              let roleARN := assumeRoleConfig.RoleARN.ValueString
              if roleARN.length < 20 ||
                  !(roleARN.data.take 13 == "arn:aws:iam::".data) then
                .error "invalid role_arn format"
              else
                let sessionName :=
                  if !assumeRoleConfig.SessionName.IsNull &&
                      assumeRoleConfig.SessionName.ValueString != "" then
                    assumeRoleConfig.SessionName.ValueString
                  else "terraform-provider-session"
                let externalID :=
                  if !assumeRoleConfig.ExternalID.IsNull then
                    assumeRoleConfig.ExternalID.ValueString
                  else ""
                match assumeRoleConfig.Duration with
                | none =>
                  .ok { Region := region
                        InlineCredentials := none
                        AssumeRoleConfig :=
                          some { RoleARN := roleARN
                                 SessionName := sessionName
                                 ExternalID := externalID
                                 Duration := 3600
                                 BaseCredentials := none } }
                | some duration =>
                  if duration < 900 || duration > 43200 then
                    .error "assume_role duration must be between 900 and 43200"
                  else
                    .ok { Region := region
                          InlineCredentials := none
                          AssumeRoleConfig :=
                            some { RoleARN := roleARN
                                   SessionName := sessionName
                                   ExternalID := externalID
                                   Duration := duration
                                   BaseCredentials := none } }

end VariantA

/-! ## Credential resolution — Variant B (chained-identity internal/aws/client.go) -/

namespace VariantB

structure ProviderAWSAssumeRoleConfig where
  RoleARN : TFString
  ExternalID : TFString
  SessionName : TFString
deriving Repr, DecidableEq

structure ProviderAWSConfig where
  Region : TFString
  AssumeRole : Option ProviderAWSAssumeRoleConfig
deriving Repr, DecidableEq

structure ProviderModel where
  AWS : Option ProviderAWSConfig
deriving Repr, DecidableEq

structure AssumeRoleConfig where
  RoleARN : String
  ExternalID : String
  SessionName : String
deriving Repr, DecidableEq

structure AWSAuthConfig where
  Region : String
  AssumeRoleConfig : Option AssumeRoleConfig
deriving Repr, DecidableEq

/-- `aws.GetAWSConfig`, chained-identity variant: region and `assume_role`
are both mandatory, there are no inline credentials. -/
def GetAWSConfig (providerModel : Option ProviderModel) :
    Except String AWSAuthConfig :=
  match providerModel with
  | none => .error "provider model is nil"
  | some pm =>
    match pm.AWS with
    | none => .error "AWS configuration is required"
    | some awsConfig =>
      if awsConfig.Region.IsNull || awsConfig.Region.ValueString == "" then
        .error "AWS region is required"
      else
        let region := awsConfig.Region.ValueString
        match awsConfig.AssumeRole with
        | none => .error "assume_role configuration is required in the aws block"
        | some assumeRoleConfig =>
          if assumeRoleConfig.RoleARN.IsNull ||
              assumeRoleConfig.RoleARN.ValueString == "" then
            .error "role_arn is required in the assume_role block"
          else
            let roleARN := assumeRoleConfig.RoleARN.ValueString
            if roleARN.length < 20 ||
                !(roleARN.data.take 13 == "arn:aws:iam::".data) then
              .error "invalid role_arn format"
            else
              let externalID :=
                if !assumeRoleConfig.ExternalID.IsNull then
                  assumeRoleConfig.ExternalID.ValueString
                else ""
              let sessionName :=
                if !assumeRoleConfig.SessionName.IsNull then
                  assumeRoleConfig.SessionName.ValueString
                else ""
              .ok { Region := region
                    AssumeRoleConfig :=
                      some { RoleARN := roleARN
                             ExternalID := externalID
                             SessionName := sessionName } }

end VariantB

/-! ## Substring occurrence

A small executable substring search used to state the script-content
properties.  `listPrefix p s` decides whether `p` is a prefix of `s`;
`containsPat p s` decides whether `p` occurs contiguously in `s`. -/

def listPrefix : List Char → List Char → Bool
  | [], _ => true
  | _ :: _, [] => false
  | a :: p, b :: s => a == b && listPrefix p s

def containsPat (p : List Char) : List Char → Bool
  | [] => p.isEmpty
  | b :: s => listPrefix p (b :: s) || containsPat p s

/-- Boolean test that the string `pat` occurs contiguously in `s`. -/
def strContains (pat s : String) : Bool :=
  containsPat pat.data s.data

theorem listPrefix_append_right (p s t : List Char)
    (h : listPrefix p s = true) : listPrefix p (s ++ t) = true := by
  induction p generalizing s with
  | nil => rfl
  | cons a q ih =>
    cases s with
    | nil => simp [listPrefix] at h
    | cons b r =>
      simp only [listPrefix, Bool.and_eq_true, beq_iff_eq] at h
      simp only [List.cons_append, listPrefix, Bool.and_eq_true, beq_iff_eq]
      exact ⟨h.1, ih r h.2⟩

theorem containsPat_of_prefix (p s : List Char)
    (h : listPrefix p s = true) : containsPat p s = true := by
  cases s with
  | nil =>
    cases p with
    | nil => rfl
    | cons a q => simp [listPrefix] at h
  | cons b r => simp [containsPat, h]

theorem containsPat_append_left (p s t : List Char)
    (h : containsPat p t = true) : containsPat p (s ++ t) = true := by
  induction s with
  | nil => simpa using h
  | cons b r ih =>
    simp only [List.cons_append, containsPat, Bool.or_eq_true]
    exact Or.inr ih

theorem containsPat_append_right (p s t : List Char)
    (h : containsPat p s = true) : containsPat p (s ++ t) = true := by
  induction s with
  | nil =>
    cases p with
    | nil => cases t with
      | nil => rfl
      | cons c u => simp [containsPat, listPrefix]
    | cons a q => simp [containsPat, List.isEmpty] at h
  | cons b r ih =>
    simp only [containsPat, Bool.or_eq_true] at h
    simp only [List.cons_append, containsPat, Bool.or_eq_true]
    rcases h with h | h
    · exact Or.inl (by
        have := listPrefix_append_right p (b :: r) t h
        simpa using this)
    · exact Or.inr (ih h)

/-! ## Bootstrap script compilation

`generateAssumeRoleScript` (resource_tekton_action_aws.go, Variant A
STS-explicit flavor) and `tekton.GenerateAssumeRoleScript`
(tekton/stepaction_aws.go, Variant B chained-identity flavor).  The Go
`fmt.Sprintf` templates are embedded as the equivalent concatenations; the
literal segments are transcribed verbatim from the source. -/

def stsScriptSeg1 : String :=
  "#!/bin/bash\nset -e\n\necho \"Setting up AWS credentials (assume role with ambient/pod credentials)\"\n\n# Create AWS config directory\nmkdir -p /workspace/.aws\n\n# Create config file (region only, no credentials needed - using ambient auth)\ncat > /workspace/.aws/config <<\x27EOF\x27\n[default]\nregion = "

def stsScriptSeg2 : String :=
  "\nEOF\n\nchmod 600 /workspace/.aws/config\n\n# Pod already has IAM permissions via IRSA to assume the target role\n# AWS CLI will use ambient credentials to assume the role\n\necho \"===========================================\"\necho \"DEBUG: Assuming IAM role: "

def stsScriptSeg3 : String :=
  " (using ambient pod credentials)\"\necho \"DEBUG: Checking for ambient credentials...\"\nenv | grep -E \x27^AWS_\x27 || echo \"No AWS environment variables found\"\necho \"DEBUG: Command to execute:\"\necho \""

def stsScriptSeg4 : String :=
  "\"\necho \"===========================================\"\n\n# Assume the role and get temporary credentials\nset +e  # Temporarily disable exit on error to capture output\nASSUME_ROLE_OUTPUT=$("

def stsScriptSeg5 : String :=
  " 2>&1)\nASSUME_ROLE_EXIT_CODE=$?\nset -e  # Re-enable exit on error\n\necho \"===========================================\"\necho \"DEBUG: AWS STS AssumeRole Exit Code: $ASSUME_ROLE_EXIT_CODE\"\necho \"DEBUG: Full AWS STS Response:\"\necho \"$ASSUME_ROLE_OUTPUT\"\necho \"===========================================\"\n\n# Check if assume role succeeded\nif [ $ASSUME_ROLE_EXIT_CODE -ne 0 ]; then\n  echo \"ERROR: Failed to assume role (exit code: $ASSUME_ROLE_EXIT_CODE)\"\n  echo \"Ensure the pod has IAM permissions to assume this role\"\n  echo \"Required: IRSA (EKS) with permissions to assume the target role\"\n  exit 1\nfi\n\n# Extract temporary credentials using jq\necho \"DEBUG: Extracting credentials using jq...\"\nAWS_ACCESS_KEY_ID=$(echo \"$ASSUME_ROLE_OUTPUT\" | jq -r \x27.Credentials.AccessKeyId\x27)\nAWS_SECRET_ACCESS_KEY=$(echo \"$ASSUME_ROLE_OUTPUT\" | jq -r \x27.Credentials.SecretAccessKey\x27)\nAWS_SESSION_TOKEN=$(echo \"$ASSUME_ROLE_OUTPUT\" | jq -r \x27.Credentials.SessionToken\x27)\nEXPIRATION=$(echo \"$ASSUME_ROLE_OUTPUT\" | jq -r \x27.Credentials.Expiration\x27)\n\necho \"DEBUG: Extracted values:\"\necho \"  AccessKeyId: $\x7bAWS_ACCESS_KEY_ID:0:10\x7d... (truncated)\"\necho \"  SecretAccessKey: [REDACTED]\"\necho \"  SessionToken: $\x7bAWS_SESSION_TOKEN:0:20\x7d... (truncated)\"\necho \"  Expiration: $EXPIRATION\"\n\n# Validate that credentials were extracted\nif [ -z \"$AWS_ACCESS_KEY_ID\" ] || [ \"$AWS_ACCESS_KEY_ID\" == \"null\" ]; then\n  echo \"ERROR: Failed to extract temporary credentials from STS response\"\n  echo \"AccessKeyId extracted: \x27$AWS_ACCESS_KEY_ID\x27\"\n  exit 1\nfi\n\necho \"Successfully assumed role. Credentials expire at: $EXPIRATION\"\n\n# Write temporary credentials to file\ncat > /workspace/.aws/credentials <<EOF\n[default]\naws_access_key_id = $AWS_ACCESS_KEY_ID\naws_secret_access_key = $AWS_SECRET_ACCESS_KEY\naws_session_token = $AWS_SESSION_TOKEN\nEOF\n\nchmod 600 /workspace/.aws/credentials\n\necho \"AWS temporary credentials configured successfully\"\n"

def stsCmdSeg1 : String := "aws sts assume-role \\\n  --role-arn \""

def stsCmdSeg2 : String := "\" \\\n  --role-session-name \""

def stsCmdSeg3 : String := " \\\n  --external-id \""

def stsCmdSeg4 : String := " \\\n  --duration-seconds "

def stsCmdSeg5 : String := " \\\n  --output json"

/-- The `aws sts assume-role` command line the Variant A generator builds
before splicing it (twice) into the script template. -/
def buildAssumeRoleCmd (assumeRole : VariantA.AssumeRoleConfig) : String :=
  let cmd := stsCmdSeg1 ++ assumeRole.RoleARN ++ stsCmdSeg2 ++
    assumeRole.SessionName ++ "\""
  let cmd :=
    if assumeRole.ExternalID != "" then
      cmd ++ stsCmdSeg3 ++ assumeRole.ExternalID ++ "\""
    else cmd
  cmd ++ stsCmdSeg4 ++ toString assumeRole.Duration ++ stsCmdSeg5

/-- `generateAssumeRoleScript` from resource_tekton_action_aws.go: the
STS-explicit bootstrap script (Variant A assume-role flavor). -/
def generateAssumeRoleScript (config : VariantA.AWSAuthConfig) : String :=
  match config.AssumeRoleConfig with
  | none => ""
  | some assumeRole =>
    let assumeRoleCmd := buildAssumeRoleCmd assumeRole
    stsScriptSeg1 ++ config.Region ++ stsScriptSeg2 ++ assumeRole.RoleARN ++
      stsScriptSeg3 ++ assumeRoleCmd ++ stsScriptSeg4 ++ assumeRoleCmd ++
      stsScriptSeg5

def chainedScriptSeg1 : String :=
  "#!/bin/bash\nset -e\n\nmkdir -p /workspace/.aws\n\nPARENT_ROLE_ARN=\"$\x7bAWS_ROLE_ARN\x7d\"\nif [ -z \"$PARENT_ROLE_ARN\" ]; then\n    echo \"ERROR: AWS_ROLE_ARN environment variable not set. IRSA may not be configured.\" >&2\n    exit 1\nfi\n\ncat > /workspace/.aws/config <<EOFCONFIG\n[profile irsa]\nweb_identity_token_file = /var/run/secrets/eks.amazonaws.com/serviceaccount/token\nrole_arn = $\x7bPARENT_ROLE_ARN\x7d\n\n[default]\nsource_profile = irsa\nrole_arn = "

def chainedScriptSeg2 : String := "\nrole_session_name = "

def chainedScriptSeg3 : String := "\nregion = "

def chainedScriptSeg4 : String :=
  "EOFCONFIG\n\nchmod 600 /workspace/.aws/config\n"

/-- `tekton.GenerateAssumeRoleScript` from tekton/stepaction_aws.go: the
chained-identity (Variant B) bootstrap script.  The random session name
produced by `generateRandomSessionName` (crypto/rand, with a pid-based
fallback) is passed in as `randSessionName`; it is used only when the
configured session name is empty. -/
def GenerateAssumeRoleScriptChained (config : VariantB.AWSAuthConfig)
    (randSessionName : String) : String :=
  match config.AssumeRoleConfig with
  | none => ""
  | some assumeRole =>
    let sessionName :=
      if assumeRole.SessionName == "" then randSessionName
      else assumeRole.SessionName
    chainedScriptSeg1 ++ assumeRole.RoleARN ++ chainedScriptSeg2 ++
      sessionName ++ chainedScriptSeg3 ++ config.Region ++ "\n" ++
      (if assumeRole.ExternalID != "" then
        "external_id = " ++ assumeRole.ExternalID ++ "\n"
      else "") ++ chainedScriptSeg4

/-! ## Reconciler update path

`updateResource` (identical in both resource implementations and in
`tekton.ResourceOperations.UpdateResource`): get the current object, copy its
`resourceVersion` onto the new object, then issue the store update.  The
dynamic Kubernetes client is embedded as a record of effectful operations
returning `Except`, and each call is recorded in an event trace. -/

structure K8sObject where
  ns : String
  name : String
  resourceVersion : String
  body : String
deriving Repr, DecidableEq

/-- `extractMetadata`: reject an object whose namespace or name is missing
or empty (on this structured embedding the type-assertion branches of the Go
code cannot fire, the emptiness checks remain). -/
def extractMetadata (obj : K8sObject) : Except String (String × String) :=
  if obj.ns == "" || obj.name == "" then
    .error "missing or empty namespace/name"
  else .ok (obj.ns, obj.name)

inductive StoreEvent where
  | get : String → String → String → StoreEvent
  | update : String → String → String → String → StoreEvent
deriving Repr, DecidableEq

structure StoreClient where
  get : String → String → String → Except String K8sObject
  update : String → K8sObject → Except String K8sObject

/-- `obj.SetResourceVersion(...)`. -/
def setResourceVersion (obj : K8sObject) (rv : String) : K8sObject :=
  { obj with resourceVersion := rv }

/-- `updateResource`: get-before-update with the concurrency token copied
from the fetched object; any store rejection is returned as the result, the
update call is issued exactly once. -/
def updateResource (c : StoreClient) (obj : K8sObject) (res : String) :
    Except String K8sObject × List StoreEvent :=
  match extractMetadata obj with
  | .error e => (.error e, [])
  | .ok (ns, name) =>
    match c.get res ns name with
    | .error e =>
      (.error ("failed to get current resource: " ++ e), [.get res ns name])
    | .ok current =>
      let objv := setResourceVersion obj current.resourceVersion
      (c.update res objv,
       [.get res ns name, .update res ns name objv.resourceVersion])

/-- The two-object Update path of the resource (`Update`): StepAction first,
then Task; the first failure is surfaced and stops the flow. -/
def updateFlow (c : StoreClient) (stepAction task : K8sObject) :
    Except String Unit × List StoreEvent :=
  let r1 := updateResource c stepAction "stepactions"
  match r1.1 with
  | .error e => (.error e, r1.2)
  | .ok _ =>
    let r2 := updateResource c task "tasks"
    match r2.1 with
    | .error e => (.error e, r1.2 ++ r2.2)
    | .ok _ => (.ok (), r1.2 ++ r2.2)

/-- A store double for the optimistic-concurrency scenario: `get` answers
with token `observed res`, and the write is accepted only when the token
carried by the written object still equals the store's latest token
`latest res` at write time. -/
def storeDouble (observed latest : String → String) : StoreClient :=
  { get := fun res ns name =>
      .ok { ns := ns, name := name, resourceVersion := observed res, body := "" }
    update := fun res obj =>
      if obj.resourceVersion == latest res then .ok obj
      else .error "Conflict" }

/-! ## Import (`ImportState`)

The label-driven reconstruction performed after the Task has been fetched:
`labels` is the result of `unstructured.NestedStringMap` (`none` when the
lookup fails), and the produced diagnostics are split into a fatal error
(`Except.error`) versus the non-fatal warning list attached to a success. -/

structure ImportedState where
  ID : String
  Name : String
  FacetsResourceName : String
  Namespace : String
  TaskName : String
  StepActionName : String
deriving Repr, DecidableEq

def partialImportWarning : String :=
  "Partial Import: Only basic fields were imported. You must manually specify: facets_environment, facets_resource, steps, and params in your configuration."

/-- Shared body of `TektonActionKubernetesResource.ImportState` and
`TektonActionAWSResource.ImportState` (the two methods differ only in the
StepAction name prefix `saPrefix`). -/
def importStateCore (saPrefix : String) (labels : Option GoMap)
    (ns taskName : String) : Except String (ImportedState × List String) :=
  match labels with
  | none => .error "Task does not have required labels for import"
  | some m =>
    let hasDisplayName := (m "display_name").isSome
    let hasResourceName := (m "resource_name").isSome
    let hasResourceKind := (m "resource_kind").isSome
    let hasEnvUniqueName := (m "environment_unique_name").isSome
    if !hasDisplayName || !hasResourceName || !hasResourceKind ||
        !hasEnvUniqueName then
      .error "Task missing required labels: display_name, resource_name, resource_kind, environment_unique_name"
    else
      let stepActionName := saPrefix ++ taskName
      .ok ({ ID := ns ++ "/" ++ taskName
             Name := (m "display_name").getD ""
             FacetsResourceName := (m "resource_name").getD ""
             Namespace := ns
             TaskName := taskName
             StepActionName := stepActionName },
           [partialImportWarning])

/-- `TektonActionKubernetesResource.ImportState`, label-processing stage. -/
def importStateKubernetes (labels : Option GoMap) (ns taskName : String) :
    Except String (ImportedState × List String) :=
  importStateCore "setup-credentials-" labels ns taskName

/-- `TektonActionAWSResource.ImportState`, label-processing stage. -/
def importStateAWS (labels : Option GoMap) (ns taskName : String) :
    Except String (ImportedState × List String) :=
  importStateCore "setup-aws-credentials-" labels ns taskName

/-- `true` exactly on the success constructor of `Except`. -/
def isOkExcept {α : Type} : Except String α → Bool
  | .ok _ => true
  | .error _ => false

/-! # Claims -/

/-- C1 (amended): for every input triple, the generated task identifier is
exactly the 32-character lowercase-hex rendering of the 128-bit (MD5) hash
of the three inputs joined with "-"; the Kubernetes-flavor credential-setup
identifier (and the unified `tekton.GenerateNames` one) is the literal prefix
"setup-credentials-" concatenated with that hex string, while the AWS-flavor
credential-setup identifier carries the prefix "setup-aws-credentials-"
instead. -/
theorem claim1_identity_generation (r e d : String) :
    (generateResourceNames r e d).1 = md5Hex (r ++ "-" ++ e ++ "-" ++ d) ∧
    (generateResourceNames r e d).2 =
      "setup-credentials-" ++ (generateResourceNames r e d).1 ∧
    (generateAWSResourceNames r e d).1 = md5Hex (r ++ "-" ++ e ++ "-" ++ d) ∧
    (generateAWSResourceNames r e d).2 =
      "setup-aws-credentials-" ++ (generateAWSResourceNames r e d).1 ∧
    (GenerateNames r e d).TaskName = md5Hex (r ++ "-" ++ e ++ "-" ++ d) ∧
    (GenerateNames r e d).StepActionName =
      "setup-credentials-" ++ (GenerateNames r e d).TaskName ∧
    (md5Hex (r ++ "-" ++ e ++ "-" ++ d)).length = 32 ∧
    ∀ c ∈ (md5Hex (r ++ "-" ++ e ++ "-" ++ d)).data,
      c ∈ "0123456789abcdef".data := by
  rw [generateResourceNames_eq, generateAWSResourceNames_eq, GenerateNames_eq]
  refine ⟨rfl, rfl, rfl, rfl, rfl, rfl, md5Hex_length _, md5Hex_lowercase_hex _⟩

/-- C1 counterexample: for the AWS resource flavor the credential-setup
identifier is not "setup-credentials-" + taskID. -/
theorem claim1_counterexample :
    (generateAWSResourceNames "my-app" "prod" "restart").2 ≠
      "setup-credentials-" ++ (generateAWSResourceNames "my-app" "prod" "restart").1 := by
  rw [generateAWSResourceNames_eq]
  intro h
  have h2 := congrArg String.length h
  rw [String.length_append, String.length_append, md5Hex_length] at h2
  rw [show ("setup-aws-credentials-" : String).length = 22 from rfl,
    show ("setup-credentials-" : String).length = 18 from rfl] at h2
  omega

/-- C2: every generated task and credential-setup identifier has length at
most 63; the 32-character hash is preserved verbatim as a suffix of the
credential-setup identifier; and whenever the truncation step receives a
string longer than 63 characters it keeps exactly the trailing 63
characters (a suffix of length 63). -/
theorem claim2_length_invariant (r e d : String) :
    (generateResourceNames r e d).1.length ≤ 63 ∧
    (generateResourceNames r e d).2.length ≤ 63 ∧
    (generateAWSResourceNames r e d).1.length ≤ 63 ∧
    (generateAWSResourceNames r e d).2.length ≤ 63 ∧
    (GenerateNames r e d).TaskName.length ≤ 63 ∧
    (GenerateNames r e d).StepActionName.length ≤ 63 ∧
    (md5Hex (r ++ "-" ++ e ++ "-" ++ d)).data <:+
      (generateResourceNames r e d).2.data ∧
    (md5Hex (r ++ "-" ++ e ++ "-" ++ d)).data <:+
      (generateAWSResourceNames r e d).2.data ∧
    ∀ s : String, s.length > 63 →
      (truncate63 s).data <:+ s.data ∧ (truncate63 s).length = 63 := by
  rw [generateResourceNames_eq, generateAWSResourceNames_eq, GenerateNames_eq]
  refine ⟨?_, ?_, ?_, ?_, ?_, ?_, ?_, ?_, fun s hs => truncate63_of_gt s hs⟩
  · rw [md5Hex_length]; omega
  · rw [prefixed_hash_length]; decide
  · rw [md5Hex_length]; omega
  · rw [prefixed_hash_length]; decide
  · rw [md5Hex_length]; omega
  · rw [prefixed_hash_length]; decide
  · rw [String.data_append]; exact List.suffix_append _ _
  · rw [String.data_append]; exact List.suffix_append _ _

/-- C2 witness: the length bound at a concrete input, and the truncation
clause exercised at a concrete 64-character string. -/
theorem claim2_witness :
    (generateResourceNames "my-app" "prod" "restart").2.length ≤ 63 ∧
    (String.mk (List.replicate 64 'a')).length > 63 ∧
    (truncate63 (String.mk (List.replicate 64 'a'))).length = 63 :=
  ⟨(claim2_length_invariant "my-app" "prod" "restart").2.1,
   by decide,
   ((claim2_length_invariant "my-app" "prod" "restart").2.2.2.2.2.2.2.2
     (String.mk (List.replicate 64 'a')) (by decide)).2⟩

/-- The five auto-derived label keys enumerated by the specification. -/
def fiveAutoKeys : List String :=
  ["display_name", "resource_name", "resource_kind",
   "environment_unique_name", "cluster_id"]

/-- C7 (amended): the five auto-derived keys always carry the auto-derived
values, never a caller-supplied value; every custom key that collides
neither with those five keys nor with the sixth auto-written key
"cloud_action" is preserved unchanged. -/
theorem claim7_label_precedence (m : ResourceMetadata) :
    m.Labels "display_name" = some m.DisplayName ∧
    m.Labels "resource_name" = some m.ResourceName ∧
    m.Labels "resource_kind" = some m.ResourceKind ∧
    m.Labels "environment_unique_name" = some m.EnvUniqueName ∧
    m.Labels "cluster_id" = some m.ClusterID ∧
    ∀ k : String, k ∉ fiveAutoKeys → k ≠ "cloud_action" →
      m.Labels k = m.CustomLabels k := by
  refine ⟨?_, ?_, ?_, ?_, ?_, ?_⟩
  · simp [ResourceMetadata.Labels, mapInsert]
  · simp [ResourceMetadata.Labels, mapInsert]
  · simp [ResourceMetadata.Labels, mapInsert]
  · simp [ResourceMetadata.Labels, mapInsert]
  · simp [ResourceMetadata.Labels, mapInsert]
  · intro k hk hkc
    simp only [fiveAutoKeys, List.mem_cons, List.mem_singleton, not_or] at hk
    obtain ⟨h1, h2, h3, h4, h5, -⟩ := hk
    simp [ResourceMetadata.Labels, mapInsert, h1, h2, h3, h4, h5, hkc]

def customCloudActionLabels : GoMap :=
  mapInsert emptyGoMap "cloud_action" "custom-value"

def claim7CexMetadata : ResourceMetadata :=
  { DisplayName := "restart", ResourceName := "my-app",
    ResourceKind := "service", EnvUniqueName := "prod", ClusterID := "c1",
    IsCloudAction := false, CustomLabels := customCloudActionLabels }

/-- C7 counterexample: the custom key "cloud_action" collides with none of
the five enumerated auto-derived keys, yet the label set does not preserve
its caller-supplied value. -/
theorem claim7_counterexample :
    "cloud_action" ∉ fiveAutoKeys ∧
    claim7CexMetadata.CustomLabels "cloud_action" = some "custom-value" ∧
    claim7CexMetadata.Labels "cloud_action" = some "false" ∧
    claim7CexMetadata.Labels "cloud_action" ≠
      claim7CexMetadata.CustomLabels "cloud_action" := by
  refine ⟨by decide, rfl, rfl, by decide⟩

/-- C9: when the `CLUSTER_ID` process-environment value is absent or empty,
every produced label set maps "cluster_id" to the literal "na"; the
"cluster_id" key is present for every input (both in the metadata-builder
path and in the `buildLabels` helper of the Create/Update paths). -/
theorem claim9_cluster_id_default (dn rn rk en : String) (b : Bool)
    (cl : GoMap) (env cid : String) :
    (NewResourceMetadata "" dn rn rk en b cl).Labels "cluster_id" =
      some "na" ∧
    (NewResourceMetadata env dn rn rk en b cl).Labels "cluster_id" =
      some (clusterIDDefault env) ∧
    ((NewResourceMetadata env dn rn rk en b cl).Labels "cluster_id").isSome =
      true ∧
    buildLabels dn rn rk en (clusterIDDefault "") "cluster_id" = some "na" ∧
    buildLabels dn rn rk en cid "cluster_id" = some cid := by
  refine ⟨?_, ?_, ?_, ?_, ?_⟩
  · simp [NewResourceMetadata, ResourceMetadata.Labels, mapInsert,
      clusterIDDefault]
  · simp [NewResourceMetadata, ResourceMetadata.Labels, mapInsert]
  · simp [NewResourceMetadata, ResourceMetadata.Labels, mapInsert]
  · simp [buildLabels, mapInsert, clusterIDDefault]
  · simp [buildLabels, mapInsert]

/-- C10 (implicit): the label set always contains the sixth auto-derived
key "cloud_action", mapped to `formatBool` of the cloud-action flag — the
literal "true" or "false" — and (because the equation holds for every
metadata value, whatever its custom labels) this key overrides any
caller-supplied label of the same name. -/
theorem claim10_cloud_action_label (m : ResourceMetadata) :
    m.Labels "cloud_action" = some (formatBool m.IsCloudAction) ∧
    formatBool true = "true" ∧ formatBool false = "false" := by
  refine ⟨?_, rfl, rfl⟩
  simp [ResourceMetadata.Labels, mapInsert]

/-- C3: in the dual-mode (Variant A) provider, a configuration carrying a
region, a complete inline access-key/secret-key pair and any `assume_role`
block — including invalid content — resolves to the inline-credentials
shape with no assume-role configuration. -/
theorem claim3_inline_priority (region ak sk : String)
    (ar : VariantA.ProviderAWSAssumeRoleConfig)
    (hr : region ≠ "") (hak : ak ≠ "") (hsk : sk ≠ "") :
    VariantA.GetAWSConfig
        (some { AWS := some { Region := .val region, AccessKey := .val ak,
                              SecretKey := .val sk, AssumeRole := some ar } }) =
      .ok { Region := region,
            InlineCredentials := some { AccessKey := ak, SecretKey := sk },
            AssumeRoleConfig := none } := by
  simp [VariantA.GetAWSConfig, TFString.IsNull, TFString.ValueString,
    hr, hak, hsk]

/-- C3 witness: the resolution at a concrete configuration with a complete
inline pair and a (deliberately malformed) assume-role block. -/
theorem claim3_witness :
    ("us-east-1" : String) ≠ "" ∧ ("AKIAEXAMPLE" : String) ≠ "" ∧
    ("secret" : String) ≠ "" ∧
    VariantA.GetAWSConfig
        (some { AWS := some { Region := .val "us-east-1",
                              AccessKey := .val "AKIAEXAMPLE",
                              SecretKey := .val "secret",
                              AssumeRole := some { RoleARN := .val "bogus",
                                                   SessionName := .null,
                                                   ExternalID := .null,
                                                   Duration := some 5 } } }) =
      .ok { Region := "us-east-1",
            InlineCredentials := some { AccessKey := "AKIAEXAMPLE",
                                        SecretKey := "secret" },
            AssumeRoleConfig := none } :=
  ⟨by decide, by decide, by decide,
   claim3_inline_priority "us-east-1" "AKIAEXAMPLE" "secret"
     { RoleARN := .val "bogus", SessionName := .null, ExternalID := .null,
       Duration := some 5 }
     (by decide) (by decide) (by decide)⟩

/-- The resolved Variant A assume-role result for a given duration, with
the defaulting of session name and external id applied. -/
def resolvedAssumeRole (region arn : String) (sn eid : TFString)
    (d : Int) : VariantA.AWSAuthConfig :=
  { Region := region
    InlineCredentials := none
    AssumeRoleConfig :=
      some { RoleARN := arn
             SessionName :=
               if !sn.IsNull && sn.ValueString != "" then sn.ValueString
               else "terraform-provider-session"
             ExternalID := if !eid.IsNull then eid.ValueString else ""
             Duration := d
             BaseCredentials := none } }

/-- C4: Variant A resolution with an `assume_role` block and no inline
credentials: an absent duration resolves to 3600, and a supplied duration
`d` resolves successfully exactly when `900 ≤ d ≤ 43200` (in which case the
resolved duration is `d` itself). -/
theorem claim4_duration_validation (region arn : String) (sn eid : TFString)
    (hr : region ≠ "") (hlen : 20 ≤ arn.length)
    (hpre : arn.data.take 13 = "arn:aws:iam::".data) :
    (VariantA.GetAWSConfig
        (some { AWS := some { Region := .val region, AccessKey := .null,
                              SecretKey := .null,
                              AssumeRole := some { RoleARN := .val arn,
                                                   SessionName := sn,
                                                   ExternalID := eid,
                                                   Duration := none } } }) =
      .ok (resolvedAssumeRole region arn sn eid 3600)) ∧
    ∀ d : Int,
      (isOkExcept (VariantA.GetAWSConfig
          (some { AWS := some { Region := .val region, AccessKey := .null,
                                SecretKey := .null,
                                AssumeRole := some { RoleARN := .val arn,
                                                     SessionName := sn,
                                                     ExternalID := eid,
                                                     Duration := some d } } })) =
          true ↔ 900 ≤ d ∧ d ≤ 43200) ∧
      (900 ≤ d → d ≤ 43200 →
        VariantA.GetAWSConfig
            (some { AWS := some { Region := .val region, AccessKey := .null,
                                  SecretKey := .null,
                                  AssumeRole := some { RoleARN := .val arn,
                                                       SessionName := sn,
                                                       ExternalID := eid,
                                                       Duration := some d } } }) =
          .ok (resolvedAssumeRole region arn sn eid d)) := by
  have harn : arn ≠ "" := by
    intro h
    rw [h] at hlen
    simp at hlen
  have hpreb : (arn.data.take 13 == "arn:aws:iam::".data) = true := by
    simp [hpre]
  constructor
  · simp [VariantA.GetAWSConfig, TFString.IsNull, TFString.ValueString,
      hr, harn, Nat.not_lt.mpr hlen, hpreb, resolvedAssumeRole]
  · intro d
    constructor
    · by_cases hlo : 900 ≤ d
      · by_cases hhi : d ≤ 43200
        · simp [VariantA.GetAWSConfig, TFString.IsNull, TFString.ValueString,
            hr, harn, Nat.not_lt.mpr hlen, hpreb, isOkExcept,
            Int.not_lt.mpr hlo, Int.not_lt.mpr hhi, hlo, hhi]
        · have : (43200 : Int) < d := Int.not_le.mp hhi
          simp [VariantA.GetAWSConfig, TFString.IsNull, TFString.ValueString,
            hr, harn, Nat.not_lt.mpr hlen, hpreb, isOkExcept,
            Int.not_lt.mpr hlo, this, hhi]
      · have : d < 900 := Int.not_le.mp hlo
        simp [VariantA.GetAWSConfig, TFString.IsNull, TFString.ValueString,
          hr, harn, Nat.not_lt.mpr hlen, hpreb, isOkExcept, this, hlo]
    · intro hlo hhi
      simp [VariantA.GetAWSConfig, TFString.IsNull, TFString.ValueString,
        hr, harn, Nat.not_lt.mpr hlen, hpreb, resolvedAssumeRole,
        Int.not_lt.mpr hlo, Int.not_lt.mpr hhi]

/-- C4 witness: the boundary durations at a concrete configuration — 900
and 43200 resolve, 899 and 43201 fail. -/
theorem claim4_witness :
    ("us-east-1" : String) ≠ "" ∧
    20 ≤ ("arn:aws:iam::123456789012:role/deploy" : String).length ∧
    ("arn:aws:iam::123456789012:role/deploy" : String).data.take 13 =
      "arn:aws:iam::".data ∧
    (isOkExcept (VariantA.GetAWSConfig
        (some { AWS := some { Region := .val "us-east-1", AccessKey := .null,
                              SecretKey := .null,
                              AssumeRole :=
                                some { RoleARN :=
                                         .val "arn:aws:iam::123456789012:role/deploy",
                                       SessionName := .null,
                                       ExternalID := .null,
                                       Duration := some 900 } } })) = true ↔
      (900 : Int) ≤ 900 ∧ (900 : Int) ≤ 43200) ∧
    (isOkExcept (VariantA.GetAWSConfig
        (some { AWS := some { Region := .val "us-east-1", AccessKey := .null,
                              SecretKey := .null,
                              AssumeRole :=
                                some { RoleARN :=
                                         .val "arn:aws:iam::123456789012:role/deploy",
                                       SessionName := .null,
                                       ExternalID := .null,
                                       Duration := some 899 } } })) = true ↔
      (900 : Int) ≤ 899 ∧ (899 : Int) ≤ 43200) :=
  ⟨by decide, by decide, by decide,
   ((claim4_duration_validation "us-east-1"
      "arn:aws:iam::123456789012:role/deploy" .null .null
      (by decide) (by decide) (by decide)).2 900).1,
   ((claim4_duration_validation "us-east-1"
      "arn:aws:iam::123456789012:role/deploy" .null .null
      (by decide) (by decide) (by decide)).2 899).1⟩

/-- C5: against a store double that answers each get with token
`observed res` and accepts a write only when the carried token still equals
`latest res`, the update path gets each of the two objects before writing
it, copies the token returned by that get onto the written object, issues
each write exactly once (the traces are exhaustive, so nothing is retried),
and surfaces a stale-token rejection to the caller as an error. -/
theorem claim5_optimistic_update (observed latest : String → String)
    (sa task : K8sObject) (hsa1 : sa.ns ≠ "") (hsa2 : sa.name ≠ "")
    (ht1 : task.ns ≠ "") (ht2 : task.name ≠ "") :
    (updateResource (storeDouble observed latest) sa "stepactions" =
      ((if observed "stepactions" == latest "stepactions" then
          .ok (setResourceVersion sa (observed "stepactions"))
        else .error "Conflict"),
       [.get "stepactions" sa.ns sa.name,
        .update "stepactions" sa.ns sa.name (observed "stepactions")])) ∧
    (observed "stepactions" ≠ latest "stepactions" →
      updateFlow (storeDouble observed latest) sa task =
        (.error "Conflict",
         [.get "stepactions" sa.ns sa.name,
          .update "stepactions" sa.ns sa.name (observed "stepactions")])) ∧
    (observed "stepactions" = latest "stepactions" →
     observed "tasks" ≠ latest "tasks" →
      updateFlow (storeDouble observed latest) sa task =
        (.error "Conflict",
         [.get "stepactions" sa.ns sa.name,
          .update "stepactions" sa.ns sa.name (observed "stepactions"),
          .get "tasks" task.ns task.name,
          .update "tasks" task.ns task.name (observed "tasks")])) ∧
    (observed "stepactions" = latest "stepactions" →
     observed "tasks" = latest "tasks" →
      updateFlow (storeDouble observed latest) sa task =
        (.ok (),
         [.get "stepactions" sa.ns sa.name,
          .update "stepactions" sa.ns sa.name (observed "stepactions"),
          .get "tasks" task.ns task.name,
          .update "tasks" task.ns task.name (observed "tasks")])) := by
  have hup : updateResource (storeDouble observed latest) sa "stepactions" =
      ((if observed "stepactions" == latest "stepactions" then
          .ok (setResourceVersion sa (observed "stepactions"))
        else .error "Conflict"),
       [.get "stepactions" sa.ns sa.name,
        .update "stepactions" sa.ns sa.name (observed "stepactions")]) := by
    simp [updateResource, extractMetadata, storeDouble, setResourceVersion,
      hsa1, hsa2]
  have hupt : updateResource (storeDouble observed latest) task "tasks" =
      ((if observed "tasks" == latest "tasks" then
          .ok (setResourceVersion task (observed "tasks"))
        else .error "Conflict"),
       [.get "tasks" task.ns task.name,
        .update "tasks" task.ns task.name (observed "tasks")]) := by
    simp [updateResource, extractMetadata, storeDouble, setResourceVersion,
      ht1, ht2]
  refine ⟨hup, ?_, ?_, ?_⟩
  · intro hne
    have hbeq : (observed "stepactions" == latest "stepactions") = false := by
      simp [hne]
    simp [updateFlow, hup, hbeq]
  · intro heq hne
    have hbeq : (observed "stepactions" == latest "stepactions") = true := by
      simp [heq]
    have hbeqt : (observed "tasks" == latest "tasks") = false := by
      simp [hne]
    simp [updateFlow, hup, hupt, hbeq, hbeqt]
  · intro heq heqt
    have hbeq : (observed "stepactions" == latest "stepactions") = true := by
      simp [heq]
    have hbeqt : (observed "tasks" == latest "tasks") = true := by
      simp [heqt]
    simp [updateFlow, hup, hupt, hbeq, hbeqt]

/-- C5 witness: a stale StepAction token at concrete objects is surfaced as
a conflict error after a single get/update pair. -/
theorem claim5_witness :
    ("tekton-pipelines" : String) ≠ "" ∧ ("sa-name" : String) ≠ "" ∧
    ("task-name" : String) ≠ "" ∧
    updateFlow
        (storeDouble (fun _ => "7") (fun _ => "8"))
        { ns := "tekton-pipelines", name := "sa-name",
          resourceVersion := "", body := "sa" }
        { ns := "tekton-pipelines", name := "task-name",
          resourceVersion := "", body := "task" } =
      (.error "Conflict",
       [.get "stepactions" "tekton-pipelines" "sa-name",
        .update "stepactions" "tekton-pipelines" "sa-name" "7"]) :=
  ⟨by decide, by decide, by decide,
   (claim5_optimistic_update (fun _ => "7") (fun _ => "8")
      { ns := "tekton-pipelines", name := "sa-name",
        resourceVersion := "", body := "sa" }
      { ns := "tekton-pipelines", name := "task-name",
        resourceVersion := "", body := "task" }
      (by decide) (by decide) (by decide) (by decide)).2.1 (by decide)⟩

/-- C6 (amended): import fails unless the four label keys display_name,
resource_name, resource_kind and environment_unique_name are all present
(the cluster-identifier label is not checked); when they are present it
succeeds, derives the StepAction name from the Task name by the fixed
prefix convention of the flavor, and attaches the non-fatal partial-import
warning instead of an error. -/
theorem claim6_import_labels (m : GoMap) (ns tn : String) :
    (∀ e1, importStateKubernetes none ns tn = .error e1 →
      importStateAWS none ns tn = .error e1) ∧
    isOkExcept (importStateKubernetes none ns tn) = false ∧
    (((m "display_name").isSome = false ∨ (m "resource_name").isSome = false ∨
      (m "resource_kind").isSome = false ∨
      (m "environment_unique_name").isSome = false) →
      isOkExcept (importStateKubernetes (some m) ns tn) = false ∧
      isOkExcept (importStateAWS (some m) ns tn) = false) ∧
    ((m "display_name").isSome = true → (m "resource_name").isSome = true →
     (m "resource_kind").isSome = true →
     (m "environment_unique_name").isSome = true →
      importStateKubernetes (some m) ns tn =
        .ok ({ ID := ns ++ "/" ++ tn, Name := (m "display_name").getD "",
               FacetsResourceName := (m "resource_name").getD "",
               Namespace := ns, TaskName := tn,
               StepActionName := "setup-credentials-" ++ tn },
             [partialImportWarning]) ∧
      importStateAWS (some m) ns tn =
        .ok ({ ID := ns ++ "/" ++ tn, Name := (m "display_name").getD "",
               FacetsResourceName := (m "resource_name").getD "",
               Namespace := ns, TaskName := tn,
               StepActionName := "setup-aws-credentials-" ++ tn },
             [partialImportWarning])) := by
  refine ⟨?_, ?_, ?_, ?_⟩
  · intro e1 h
    simpa [importStateKubernetes, importStateAWS, importStateCore] using h
  · simp [importStateKubernetes, importStateCore, isOkExcept]
  · intro h
    rcases h with h | h | h | h <;>
      constructor <;>
      simp [importStateKubernetes, importStateAWS, importStateCore, isOkExcept, h]
  · intro h1 h2 h3 h4
    constructor <;>
      simp [importStateKubernetes, importStateAWS, importStateCore,
        h1, h2, h3, h4]

def fourKeyLabels : GoMap :=
  mapInsert
    (mapInsert
      (mapInsert
        (mapInsert emptyGoMap "display_name" "restart")
        "resource_name" "my-app")
      "resource_kind" "service")
    "environment_unique_name" "prod"

/-- C6 counterexample: a Task whose label set carries only the four checked
keys — and in particular no cluster-identifier label — imports
successfully, so import does not require all five auto-derived keys. -/
theorem claim6_counterexample :
    fourKeyLabels "cluster_id" = none ∧
    importStateKubernetes (some fourKeyLabels) "tekton-pipelines" "abc123" =
      .ok ({ ID := "tekton-pipelines/abc123", Name := "restart",
             FacetsResourceName := "my-app", Namespace := "tekton-pipelines",
             TaskName := "abc123",
             StepActionName := "setup-credentials-abc123" },
           [partialImportWarning]) := by
  refine ⟨rfl, rfl⟩

/-- C6 witness: import at a concrete complete label map succeeds with the
prefix-derived StepAction name and the non-fatal warning. -/
theorem claim6_witness :
    ((mapInsert fourKeyLabels "cluster_id" "c1") "display_name").isSome =
      true ∧
    importStateAWS (some (mapInsert fourKeyLabels "cluster_id" "c1"))
        "tekton-pipelines" "abc123" =
      .ok ({ ID := "tekton-pipelines/abc123", Name := "restart",
             FacetsResourceName := "my-app", Namespace := "tekton-pipelines",
             TaskName := "abc123",
             StepActionName := "setup-aws-credentials-abc123" },
           [partialImportWarning]) :=
  ⟨by decide,
   ((claim6_import_labels (mapInsert fourKeyLabels "cluster_id" "c1")
      "tekton-pipelines" "abc123").2.2.2
     (by decide) (by decide) (by decide) (by decide)).2⟩

theorem buildAssumeRoleCmd_starts (ar : VariantA.AssumeRoleConfig) :
    listPrefix ("aws sts assume-role".data) (buildAssumeRoleCmd ar).data =
      true := by
  have hseg : listPrefix ("aws sts assume-role".data) stsCmdSeg1.data =
      true := by decide
  unfold buildAssumeRoleCmd
  by_cases h : ar.ExternalID != ""
  · simp only [h, if_true, String.data_append, List.append_assoc]
    exact listPrefix_append_right _ _ _ hseg
  · simp only [h, if_false, String.data_append, List.append_assoc]
    exact listPrefix_append_right _ _ _ hseg

theorem scriptA_contains_tail (p : String)
    (hp : containsPat p.data stsScriptSeg5.data = true)
    (cfg : VariantA.AWSAuthConfig) (ar : VariantA.AssumeRoleConfig)
    (h : cfg.AssumeRoleConfig = some ar) :
    strContains p (generateAssumeRoleScript cfg) = true := by
  simp only [generateAssumeRoleScript, h, strContains, String.data_append,
    List.append_assoc]
  iterate 8 apply containsPat_append_left
  exact hp

theorem scriptA_contains_cmd (cfg : VariantA.AWSAuthConfig)
    (ar : VariantA.AssumeRoleConfig) (h : cfg.AssumeRoleConfig = some ar) :
    strContains "aws sts assume-role" (generateAssumeRoleScript cfg) =
      true := by
  simp only [generateAssumeRoleScript, h, strContains, String.data_append,
    List.append_assoc]
  iterate 5 apply containsPat_append_left
  apply containsPat_of_prefix
  apply listPrefix_append_right
  exact buildAssumeRoleCmd_starts ar

/-- A representative chained-identity (Variant B) configuration used to
exhibit the compiled script. -/
def chainedExampleConfig : VariantB.AWSAuthConfig :=
  { Region := "us-east-1"
    AssumeRoleConfig :=
      some { RoleARN := "arn:aws:iam::123456789012:role/target-role"
             ExternalID := ""
             SessionName := "tf-session" } }

/-- The compiled chained-identity bootstrap script at the representative
configuration (the random-session argument is unused because a session name
is configured). -/
def chainedExampleScript : String :=
  GenerateAssumeRoleScriptChained chainedExampleConfig
    "terraform-0011223344556677"

/-- C8: every compiled STS-explicit (Variant A assume-role) bootstrap
script contains the explicit `aws sts assume-role` invocation and the
extraction of all three credential fields from the JSON response, while the
compiled chained-identity (Variant B) script contains no assume-role
invocation and no credential-extraction logic, and instead writes a
two-profile config file whose default profile chains to the target role via
`source_profile`. -/
theorem claim8_script_content :
    (∀ (cfg : VariantA.AWSAuthConfig) (ar : VariantA.AssumeRoleConfig),
      cfg.AssumeRoleConfig = some ar →
        strContains "aws sts assume-role" (generateAssumeRoleScript cfg) =
          true ∧
        strContains ".Credentials.AccessKeyId"
          (generateAssumeRoleScript cfg) = true ∧
        strContains ".Credentials.SecretAccessKey"
          (generateAssumeRoleScript cfg) = true ∧
        strContains ".Credentials.SessionToken"
          (generateAssumeRoleScript cfg) = true) ∧
    strContains "aws sts assume-role" chainedExampleScript = false ∧
    strContains ".Credentials.AccessKeyId" chainedExampleScript = false ∧
    strContains ".Credentials.SecretAccessKey" chainedExampleScript = false ∧
    strContains ".Credentials.SessionToken" chainedExampleScript = false ∧
    strContains "jq" chainedExampleScript = false ∧
    strContains "[profile irsa]" chainedExampleScript = true ∧
    strContains "[default]" chainedExampleScript = true ∧
    strContains "source_profile = irsa" chainedExampleScript = true ∧
    strContains "role_arn = arn:aws:iam::123456789012:role/target-role"
      chainedExampleScript = true := by
  refine ⟨?_, by decide, by decide, by decide, by decide, by decide,
    by decide, by decide, by decide, by decide⟩
  intro cfg ar h
  refine ⟨scriptA_contains_cmd cfg ar h, ?_, ?_, ?_⟩
  · exact scriptA_contains_tail _ (by decide) cfg ar h
  · exact scriptA_contains_tail _ (by decide) cfg ar h
  · exact scriptA_contains_tail _ (by decide) cfg ar h

/-- C8 witness: the STS-explicit part of the claim applied at a concrete
Variant A assume-role configuration. -/
theorem claim8_witness :
    ({ Region := "us-east-1", InlineCredentials := none,
       AssumeRoleConfig :=
         some { RoleARN := "arn:aws:iam::123456789012:role/target-role",
                SessionName := "terraform-provider-session",
                ExternalID := "", Duration := 3600,
                BaseCredentials := none } } :
        VariantA.AWSAuthConfig).AssumeRoleConfig =
      some { RoleARN := "arn:aws:iam::123456789012:role/target-role",
             SessionName := "terraform-provider-session",
             ExternalID := "", Duration := 3600, BaseCredentials := none } ∧
    strContains "aws sts assume-role"
      (generateAssumeRoleScript
        { Region := "us-east-1", InlineCredentials := none,
          AssumeRoleConfig :=
            some { RoleARN := "arn:aws:iam::123456789012:role/target-role",
                   SessionName := "terraform-provider-session",
                   ExternalID := "", Duration := 3600,
                   BaseCredentials := none } }) = true :=
  ⟨rfl,
   (claim8_script_content.1
      { Region := "us-east-1", InlineCredentials := none,
        AssumeRoleConfig :=
          some { RoleARN := "arn:aws:iam::123456789012:role/target-role",
                 SessionName := "terraform-provider-session",
                 ExternalID := "", Duration := 3600,
                 BaseCredentials := none } }
      { RoleARN := "arn:aws:iam::123456789012:role/target-role",
        SessionName := "terraform-provider-session",
        ExternalID := "", Duration := 3600, BaseCredentials := none }
      rfl).1⟩

end Facets
